import Mathlib

/-!
Verification of the mount lifecycle controller in `cmd/mount/mount.go`.

The embedding follows the Go source closely:
* Go errors are modelled as `Option String` (`none` = Go `nil`).
* `mountOptions` is the option builder; its second component is the list of
  warning messages it logs via `fs.Errorf`.
* The serve goroutine (lines 86-93) is `serveTaskSends`: the list of values it
  writes to the buffered result channel `errChan`.
* `mount` (lines 74-106) is modelled by its observable outcome: the returned
  error and whether the background serve goroutine was started.
* `Mount` (lines 111-155) is modelled over an `Env` (the outcomes the external
  transport would deliver in this run) and a list of `Event`s: the order in
  which the `select` in the waitloop observes channel deliveries.  A run whose
  event list never delivers a terminal event blocks forever, modelled as `none`.
-/

/-- A Go `error` value: `none` is the nil error. -/
abbrev GoError := Option String

/-! ## Option builder (`mountOptions`, lines 26-66) -/

/-- Transport-level mount option tokens (`fuse.MountOption` values). -/
inductive MountOption where
  | maxReadahead : Nat → MountOption
  | subtypeName : String → MountOption
  | fsName : String → MountOption
  | volumeName : String → MountOption
  | noAppleDouble : MountOption
  | noAppleXattr : MountOption
  | allowNonEmptyMount : MountOption
  | allowOther : MountOption
  | allowRoot : MountOption
  | defaultPermissions : MountOption
  | readOnly : MountOption
  | writebackCache : MountOption
deriving DecidableEq

/-- The configuration read by `mountOptions` and `Mount`: the `mountlib`
package-level flags plus `vfsflags.Opt.ReadOnly`. -/
structure Config where
  MaxReadAhead : Nat
  AllowNonEmpty : Bool
  AllowOther : Bool
  AllowRoot : Bool
  DefaultPermissions : Bool
  ReadOnly : Bool
  WritebackCache : Bool
  ExtraOptions : List String
deriving DecidableEq

/-- `mountOptions` (lines 26-66): builds the option token list from the flags
and returns also the warning messages logged with `fs.Errorf`. -/
def mountOptions (cfg : Config) (device : String) : List MountOption × List String :=
  let options : List MountOption :=
    [MountOption.maxReadahead cfg.MaxReadAhead,
     MountOption.subtypeName "rclone",
     MountOption.fsName device, MountOption.volumeName device,
     MountOption.noAppleDouble,
     MountOption.noAppleXattr]
  let options := if cfg.AllowNonEmpty then options ++ [MountOption.allowNonEmptyMount] else options
  let options := if cfg.AllowOther then options ++ [MountOption.allowOther] else options
  let options := if cfg.AllowRoot then options ++ [MountOption.allowRoot] else options
  let options := if cfg.DefaultPermissions then options ++ [MountOption.defaultPermissions] else options
  let options := if cfg.ReadOnly then options ++ [MountOption.readOnly] else options
  let options := if cfg.WritebackCache then options ++ [MountOption.writebackCache] else options
  let logs : List String :=
    (if cfg.ExtraOptions.length > 0
      then ["-o/--option not supported with this FUSE backend"] else [])
    ++ (if cfg.ExtraOptions.length > 0
      then ["--fuse-flag not supported with this FUSE backend"] else [])
  (options, logs)

/-- The tokens implied by the true-valued recognized options, in the builder's
stable order (spec wording: "contains exactly the tokens implied by true-valued
recognized options, in stable order"). -/
def impliedOptions (cfg : Config) (device : String) : List MountOption :=
  [MountOption.maxReadahead cfg.MaxReadAhead,
   MountOption.subtypeName "rclone",
   MountOption.fsName device, MountOption.volumeName device,
   MountOption.noAppleDouble,
   MountOption.noAppleXattr]
  ++ (if cfg.AllowNonEmpty then [MountOption.allowNonEmptyMount] else [])
  ++ (if cfg.AllowOther then [MountOption.allowOther] else [])
  ++ (if cfg.AllowRoot then [MountOption.allowRoot] else [])
  ++ (if cfg.DefaultPermissions then [MountOption.defaultPermissions] else [])
  ++ (if cfg.ReadOnly then [MountOption.readOnly] else [])
  ++ (if cfg.WritebackCache then [MountOption.writebackCache] else [])

/-! ## Serve supervisor (goroutine, lines 85-93) -/

/-- Capacity of `errChan` (`make(chan error, 1)`, line 85). -/
def errChanCap : Nat := 1

/-- Capacity of `sigInt` (`make(chan os.Signal, 1)`, line 124). -/
def sigIntCap : Nat := 1

/-- Capacity of `sigHup` (`make(chan os.Signal, 1)`, line 126). -/
def sigHupCap : Nat := 1

/-- The value the serve goroutine sends: `err := server.Serve(filesys);
closeErr := c.Close(); if err == nil { err = closeErr }` (lines 87-91). -/
def serveTaskResult (serveErr closeErr : GoError) : GoError :=
  match serveErr with
  | none => closeErr
  | some e => some e

/-- The complete list of values the serve goroutine ever writes to `errChan`
(line 92 runs once, then the goroutine returns). -/
def serveTaskSends (serveErr closeErr : GoError) : List GoError :=
  [serveTaskResult serveErr closeErr]

/-- Modelled from the spec: "the first non-nil of {serve-loop error,
connection-close error}". -/
def firstNonNil (a b : GoError) : GoError :=
  if a.isSome then a else b

/-! ## Mount establishment and the lifecycle controller -/

/-- The outcomes the external transport delivers in one run: the result of
`fuse.Mount`, the `c.MountError` observed after `c.Ready`, the serve-loop and
connection-close results, and the result of `fuse.Unmount`. -/
structure Env where
  fuseMountErr : GoError
  mountError : GoError
  serveErr : GoError
  closeErr : GoError
  unmountErr : GoError
deriving DecidableEq

/-- Observable outcome of `mount` (lines 74-106): the error returned and
whether the background serve goroutine was started (line 86). -/
structure MountPhase where
  err : GoError
  serveTaskStarted : Bool
deriving DecidableEq

/-- `mount` (lines 74-106).  Note the goroutine is started (line 86) before
`<-c.Ready` and the `c.MountError` check (lines 96-99). -/
def mount (env : Env) : MountPhase :=
  match env.fuseMountErr with
  | some e => { err := some e, serveTaskStarted := false }
  | none =>
    match env.mountError with
    | some e => { err := some e, serveTaskStarted := true }
    | none => { err := none, serveTaskStarted := true }

/-- One delivery observed by the `select` in the waitloop (lines 131-147):
which channel's branch is taken.  A `hup` event carries the outcome of the
`FS.Root()` call made while servicing it. -/
inductive Event where
  | serveResult : Event
  | interrupt : Event
  | hup : GoError → Event
deriving DecidableEq

/-- How the waitloop was exited: via `errChan` (carrying the serve outcome) or
via `sigInt` (carrying the `unmount()` result). -/
inductive LoopExit where
  | serveResult : GoError → LoopExit
  | interrupted : GoError → LoopExit
deriving DecidableEq

/-- The error carried by a loop exit: the value the Go variable `err` holds
right after `break waitloop`. -/
def exitErr : LoopExit → GoError
  | LoopExit.serveResult e => e
  | LoopExit.interrupted e => e

/-- Side effects accumulated by a run of the waitloop. -/
structure Trace where
  unmountCalls : Nat
  forgetAllCalls : Nat
  errChanReads : Nat
  logs : List String
deriving DecidableEq

/-- The empty trace: no calls made, nothing logged. -/
def emptyTrace : Trace :=
  { unmountCalls := 0, forgetAllCalls := 0, errChanReads := 0, logs := [] }

/-- The waitloop (lines 129-148) over the list of observed deliveries.
`serveOut` is the value sitting in `errChan`; `unmountErr` the result
`unmount()` would return.  Returns `none` when the event list is exhausted
without a terminal event (the `select` would block forever). -/
def waitloop (serveOut unmountErr : GoError) :
    List Event → Trace → Option (LoopExit × Trace)
  | [], _ => none
  | Event.serveResult :: _, t =>
    some (LoopExit.serveResult serveOut,
          { t with errChanReads := t.errChanReads + 1 })
  | Event.interrupt :: _, t =>
    some (LoopExit.interrupted unmountErr,
          { t with unmountCalls := t.unmountCalls + 1 })
  | Event.hup rootErr :: rest, t =>
    match rootErr with
    | some e =>
      waitloop serveOut unmountErr rest
        { t with logs := t.logs ++ ["Error reading root: " ++ e] }
    | none =>
      waitloop serveOut unmountErr rest
        { t with forgetAllCalls := t.forgetAllCalls + 1 }

/-- `errors.Wrap` from github.com/pkg/errors: nil stays nil, otherwise the
message becomes `msg ++ ": " ++ cause`. -/
def wrap (msg : String) (e : GoError) : GoError :=
  match e with
  | none => none
  | some m => some (msg ++ ": " ++ m)

/-- Observable outcome of a terminating run of `Mount`. -/
structure RunResult where
  result : GoError
  serveTaskStarted : Bool
  exit : Option LoopExit
  trace : Trace
deriving DecidableEq

/-- `Mount` (lines 111-155) over an environment and the deliveries observed by
the waitloop.  `none` when the waitloop never observes a terminal event. -/
def Mount (env : Env) (events : List Event) : Option RunResult :=
  match env.fuseMountErr with
  | some e =>
    some { result := wrap "failed to mount FUSE fs" (some e),
           serveTaskStarted := false, exit := none, trace := emptyTrace }
  | none =>
    match env.mountError with
    | some e =>
      some { result := wrap "failed to mount FUSE fs" (some e),
             serveTaskStarted := true, exit := none, trace := emptyTrace }
    | none =>
      match waitloop (serveTaskResult env.serveErr env.closeErr)
              env.unmountErr events emptyTrace with
      | none => none
      | some (ex, t) =>
        some { result := wrap "failed to umount FUSE fs" (exitErr ex),
               serveTaskStarted := true, exit := some ex, trace := t }

/-- A result is wrapped with phase tag `tag` when its message is
`tag ++ ": " ++ cause` for some cause. -/
def isWrappedWith (tag : String) (e : GoError) : Prop :=
  ∃ m, e = some (tag ++ ": " ++ m)

/-- An exit is clean when the error it carries is nil. -/
def cleanExit : Option LoopExit → Bool
  | some ex => (exitErr ex).isNone
  | none => false

/-! ## Helper lemmas about the waitloop -/

/-- An interrupted exit carries the unmount result, increments the unmount
counter exactly once, and never reads `errChan`. -/
lemma waitloop_interrupted_spec (s u : GoError) :
    ∀ (evs : List Event) (t t2 : Trace) (r : GoError),
      waitloop s u evs t = some (LoopExit.interrupted r, t2) →
      r = u ∧ t2.unmountCalls = t.unmountCalls + 1 ∧
        t2.errChanReads = t.errChanReads := by
  intro evs
  induction evs with
  | nil => intro t t2 r h; simp [waitloop] at h
  | cons ev rest ih =>
    intro t t2 r h
    cases ev with
    | serveResult => simp [waitloop] at h
    | interrupt =>
      simp only [waitloop, Option.some.injEq, Prod.mk.injEq,
        LoopExit.interrupted.injEq] at h
      obtain ⟨h1, h2⟩ := h
      subst h1
      subst h2
      simp
    | hup rootErr =>
      cases rootErr with
      | none =>
        simp only [waitloop] at h
        have hres := ih _ _ _ h
        simpa using hres
      | some e =>
        simp only [waitloop] at h
        have hres := ih _ _ _ h
        simpa using hres

/-- A serve-result exit carries the serve outcome, reads `errChan` exactly
once, and never calls `unmount`. -/
lemma waitloop_serveResult_spec (s u : GoError) :
    ∀ (evs : List Event) (t t2 : Trace) (r : GoError),
      waitloop s u evs t = some (LoopExit.serveResult r, t2) →
      r = s ∧ t2.unmountCalls = t.unmountCalls ∧
        t2.errChanReads = t.errChanReads + 1 := by
  intro evs
  induction evs with
  | nil => intro t t2 r h; simp [waitloop] at h
  | cons ev rest ih =>
    intro t t2 r h
    cases ev with
    | serveResult =>
      simp only [waitloop, Option.some.injEq, Prod.mk.injEq,
        LoopExit.serveResult.injEq] at h
      obtain ⟨h1, h2⟩ := h
      subst h1
      subst h2
      simp
    | interrupt => simp [waitloop] at h
    | hup rootErr =>
      cases rootErr with
      | none =>
        simp only [waitloop] at h
        have hres := ih _ _ _ h
        simpa using hres
      | some e =>
        simp only [waitloop] at h
        have hres := ih _ _ _ h
        simpa using hres

/-- Framing logs: prepending entries to the starting trace's log prepends them
to the final trace's log and changes nothing else. -/
lemma waitloop_logs_frame (s u : GoError) :
    ∀ (evs : List Event) (t : Trace) (pre : List String) (ex : LoopExit)
      (t2 : Trace),
      waitloop s u evs t = some (ex, t2) →
      waitloop s u evs { t with logs := pre ++ t.logs } =
        some (ex, { t2 with logs := pre ++ t2.logs }) := by
  intro evs
  induction evs with
  | nil => intro t pre ex t2 h; simp [waitloop] at h
  | cons ev rest ih =>
    intro t pre ex t2 h
    cases ev with
    | serveResult =>
      simp only [waitloop, Option.some.injEq, Prod.mk.injEq] at h
      obtain ⟨h1, h2⟩ := h
      subst h1
      subst h2
      simp [waitloop]
    | interrupt =>
      simp only [waitloop, Option.some.injEq, Prod.mk.injEq] at h
      obtain ⟨h1, h2⟩ := h
      subst h1
      subst h2
      simp [waitloop]
    | hup rootErr =>
      cases rootErr with
      | none =>
        simp only [waitloop] at h ⊢
        have hres := ih _ pre _ _ h
        simpa using hres
      | some e =>
        simp only [waitloop] at h ⊢
        have hres := ih _ pre _ _ h
        simpa [List.append_assoc] using hres

/-- `n` successfully serviced hang-ups followed by a serve result: the loop
exits with the serve outcome after exactly `n` `ForgetAll` calls and no
unmount call. -/
lemma waitloop_replicate_hup (s u : GoError) :
    ∀ (n : Nat) (t : Trace),
      waitloop s u (List.replicate n (Event.hup none) ++ [Event.serveResult]) t =
        some (LoopExit.serveResult s,
          { t with forgetAllCalls := t.forgetAllCalls + n,
                   errChanReads := t.errChanReads + 1 }) := by
  intro n
  induction n with
  | zero => intro t; simp [waitloop]
  | succ n ihn =>
    intro t
    rw [List.replicate_succ, List.cons_append]
    simp only [waitloop]
    rw [ihn]
    cases t
    simp
    omega

/-- Inversion for a `Mount` run that exits the waitloop: the mount phase
succeeded, the waitloop produced the exit and trace, and the result is the
exit error wrapped with the umount tag. -/
lemma Mount_exit_inv (env : Env) (events : List Event) (r : RunResult)
    (ex : LoopExit) (h : Mount env events = some r) (hx : r.exit = some ex) :
    env.fuseMountErr = none ∧ env.mountError = none ∧
      waitloop (serveTaskResult env.serveErr env.closeErr) env.unmountErr
        events emptyTrace = some (ex, r.trace) ∧
      r.result = wrap "failed to umount FUSE fs" (exitErr ex) ∧
      r.serveTaskStarted = true := by
  unfold Mount at h
  cases hf : env.fuseMountErr with
  | some e =>
    rw [hf] at h
    simp only [Option.some.injEq] at h
    rw [← h] at hx
    simp at hx
  | none =>
    rw [hf] at h
    cases hm : env.mountError with
    | some e =>
      rw [hm] at h
      simp only [Option.some.injEq] at h
      rw [← h] at hx
      simp at hx
    | none =>
      rw [hm] at h
      cases hw : waitloop (serveTaskResult env.serveErr env.closeErr)
          env.unmountErr events emptyTrace with
      | none => rw [hw] at h; simp at h
      | some p =>
        obtain ⟨ex2, t2⟩ := p
        rw [hw] at h
        simp only [Option.some.injEq] at h
        subst h
        have hex : ex2 = ex := Option.some.inj hx
        subst hex
        exact ⟨rfl, rfl, rfl, rfl, rfl⟩

/-! ## Claims -/

/-- C1 (counterexample): a run that reaches UNMOUNTING (interrupt received
while serving, `unmount` called) with a nil unmount error and a non-nil
serve-loop error reports `nil`, not the serve-result error: the serve result
is never read after the interrupt. -/
theorem C1_counterexample :
    Mount { fuseMountErr := none, mountError := none,
            serveErr := some "serve loop failed", closeErr := none,
            unmountErr := none } [Event.interrupt] =
      some { result := none, serveTaskStarted := true,
             exit := some (LoopExit.interrupted none),
             trace := { unmountCalls := 1, forgetAllCalls := 0,
                        errChanReads := 0, logs := [] } } ∧
    serveTaskResult (some "serve loop failed") none = some "serve loop failed" :=
  ⟨rfl, rfl⟩

/-- C1 (amended): for every execution that reaches UNMOUNTING, the final
result is the unmount error (wrapped with the umount tag) if non-nil and nil
otherwise; the serve-result channel is never read, so the serve-result error
plays no part in the reported result. -/
theorem C1_amended (env : Env) (events : List Event) (r : RunResult)
    (u : GoError) (h : Mount env events = some r)
    (hx : r.exit = some (LoopExit.interrupted u)) :
    r.result = wrap "failed to umount FUSE fs" env.unmountErr ∧
    r.trace.errChanReads = 0 := by
  obtain ⟨-, -, hw, hres, -⟩ := Mount_exit_inv env events r _ h hx
  have hspec := waitloop_interrupted_spec _ _ _ _ _ _ hw
  constructor
  · rw [hres]
    simp [exitErr, hspec.1]
  · simpa [emptyTrace] using hspec.2.2

/-- C1 (witness): a concrete interrupted run with a failing unmount. -/
theorem C1_amended_witness :
    ({ result := some "failed to umount FUSE fs: busy", serveTaskStarted := true,
       exit := some (LoopExit.interrupted (some "busy")),
       trace := { unmountCalls := 1, forgetAllCalls := 1, errChanReads := 0,
                  logs := [] } } : RunResult).result =
      wrap "failed to umount FUSE fs" (some "busy") ∧
    ({ result := some "failed to umount FUSE fs: busy", serveTaskStarted := true,
       exit := some (LoopExit.interrupted (some "busy")),
       trace := { unmountCalls := 1, forgetAllCalls := 1, errChanReads := 0,
                  logs := [] } } : RunResult).trace.errChanReads = 0 :=
  C1_amended
    { fuseMountErr := none, mountError := none, serveErr := some "ignored",
      closeErr := none, unmountErr := some "busy" }
    [Event.hup none, Event.interrupt] _ (some "busy") rfl rfl

/-- C2 (counterexample): when the readiness signal carries a non-nil
`MountError`, the background serve goroutine has already been started (line 86
precedes the `c.MountError` check at line 97), so "no serve task is ever
started" fails for this failure mode. -/
theorem C2_counterexample :
    (mount { fuseMountErr := none, mountError := some "already mounted",
             serveErr := none, closeErr := none, unmountErr := none }).err =
        some "already mounted" ∧
    (mount { fuseMountErr := none, mountError := some "already mounted",
             serveErr := none, closeErr := none,
             unmountErr := none }).serveTaskStarted = true ∧
    Mount { fuseMountErr := none, mountError := some "already mounted",
            serveErr := none, closeErr := none, unmountErr := none } [] =
      some { result := some "failed to mount FUSE fs: already mounted",
             serveTaskStarted := true, exit := none, trace := emptyTrace } :=
  ⟨rfl, rfl, rfl⟩

/-- C2 (amended): the serve goroutine is started iff the Transport's `Mount`
call itself succeeds; a non-nil readiness `MountError` still fails the mount
establishment, but the serve task has already been started by then. -/
theorem C2_amended (env : Env) :
    (mount env).serveTaskStarted = env.fuseMountErr.isNone ∧
    (mount env).err =
      (match env.fuseMountErr with
       | some e => some e
       | none => env.mountError) := by
  cases hf : env.fuseMountErr <;> cases hm : env.mountError <;>
    simp [mount, hf, hm]

/-- C4: for every started serve task, exactly one value is written to the
result channel, computed as the first non-nil of the serve-loop error and the
connection-close error, and the channel capacity is at least 1 so the single
write never blocks. -/
theorem C4_serveSupervisor (serveErr closeErr : GoError) :
    serveTaskSends serveErr closeErr = [firstNonNil serveErr closeErr] ∧
    (serveTaskSends serveErr closeErr).length = 1 ∧
    (serveTaskSends serveErr closeErr).length ≤ errChanCap ∧
    1 ≤ errChanCap := by
  cases serveErr <;>
    simp [serveTaskSends, serveTaskResult, firstNonNil, errChanCap]

/-- C3 (counterexample): an unmount failure is wrapped with the tag
"failed to umount FUSE fs" — literally "umount", which matches neither
"failed to mount ..." nor the claimed "failed to unmount ...". -/
theorem C3_counterexample :
    Mount { fuseMountErr := none, mountError := none, serveErr := none,
            closeErr := none, unmountErr := some "resource busy" }
        [Event.interrupt] =
      some { result := some "failed to umount FUSE fs: resource busy",
             serveTaskStarted := true,
             exit := some (LoopExit.interrupted (some "resource busy")),
             trace := { unmountCalls := 1, forgetAllCalls := 0,
                        errChanReads := 0, logs := [] } } ∧
    "failed to umount FUSE fs: resource busy".take 17 ≠ "failed to unmount" ∧
    "failed to umount FUSE fs: resource busy".take 15 ≠ "failed to mount" := by
  set_option maxRecDepth 4096 in
  refine ⟨rfl, ?_, ?_⟩ <;> decide

/-- C3 (amended): the top-level operation returns nil exactly on clean
shutdown, and every non-nil result is wrapped with the phase tag
"failed to mount FUSE fs" (mount-phase failure) or "failed to umount FUSE fs"
(any error observed after the mount was established). -/
theorem C3_amended (env : Env) (events : List Event) (r : RunResult)
    (h : Mount env events = some r) :
    (r.result = none ↔ cleanExit r.exit = true) ∧
    (r.result = none ∨ isWrappedWith "failed to mount FUSE fs" r.result ∨
      isWrappedWith "failed to umount FUSE fs" r.result) := by
  unfold Mount at h
  cases hf : env.fuseMountErr with
  | some e =>
    rw [hf] at h
    simp only [Option.some.injEq] at h
    subst h
    constructor
    · simp [wrap, cleanExit]
    · exact Or.inr (Or.inl ⟨e, rfl⟩)
  | none =>
    rw [hf] at h
    cases hm : env.mountError with
    | some e =>
      rw [hm] at h
      simp only [Option.some.injEq] at h
      subst h
      constructor
      · simp [wrap, cleanExit]
      · exact Or.inr (Or.inl ⟨e, rfl⟩)
    | none =>
      rw [hm] at h
      cases hw : waitloop (serveTaskResult env.serveErr env.closeErr)
          env.unmountErr events emptyTrace with
      | none => rw [hw] at h; simp at h
      | some p =>
        obtain ⟨ex, t2⟩ := p
        rw [hw] at h
        simp only [Option.some.injEq] at h
        subst h
        cases hee : exitErr ex with
        | none =>
          constructor
          · simp [wrap, cleanExit, hee]
          · left
            simp [wrap, hee]
        | some m =>
          constructor
          · simp [wrap, cleanExit, hee]
          · exact Or.inr (Or.inr ⟨m, by simp [wrap, hee]⟩)

/-- C3 (witness): a concrete run with a failing unmount. -/
theorem C3_amended_witness :
    ((some "failed to umount FUSE fs: device busy" : GoError) = none ↔
      cleanExit (some (LoopExit.interrupted (some "device busy"))) = true) ∧
    ((some "failed to umount FUSE fs: device busy" : GoError) = none ∨
      isWrappedWith "failed to mount FUSE fs"
        (some "failed to umount FUSE fs: device busy") ∨
      isWrappedWith "failed to umount FUSE fs"
        (some "failed to umount FUSE fs: device busy")) :=
  C3_amended
    { fuseMountErr := none, mountError := none, serveErr := none,
      closeErr := none, unmountErr := some "device busy" }
    [Event.interrupt]
    { result := some "failed to umount FUSE fs: device busy",
      serveTaskStarted := true,
      exit := some (LoopExit.interrupted (some "device busy")),
      trace := { unmountCalls := 1, forgetAllCalls := 0, errChanReads := 0,
                 logs := [] } } rfl

/-- C5: a hang-up whose root lookup fails is logged and ignored: relative to
the same run without that event the result, the exit, the unmount count, the
ForgetAll count and the errChan reads are all unchanged, and the only
difference is the logged root-lookup error, which never reaches the result. -/
theorem C5_hupFailureRecovered (env : Env) (e : String) (rest : List Event)
    (r r2 : RunResult)
    (h1 : env.fuseMountErr = none) (h2 : env.mountError = none)
    (h : Mount env (Event.hup (some e) :: rest) = some r)
    (hr : Mount env rest = some r2) :
    r.result = r2.result ∧ r.exit = r2.exit ∧
    r.trace.unmountCalls = r2.trace.unmountCalls ∧
    r.trace.forgetAllCalls = r2.trace.forgetAllCalls ∧
    r.trace.errChanReads = r2.trace.errChanReads ∧
    r.trace.logs = ("Error reading root: " ++ e) :: r2.trace.logs := by
  unfold Mount at h hr
  rw [h1, h2] at h hr
  cases hw : waitloop (serveTaskResult env.serveErr env.closeErr)
      env.unmountErr rest emptyTrace with
  | none => rw [hw] at hr; simp at hr
  | some p =>
    obtain ⟨ex, t2⟩ := p
    rw [hw] at hr
    simp only [Option.some.injEq] at hr
    subst hr
    have hfr := waitloop_logs_frame _ _ rest emptyTrace
      ["Error reading root: " ++ e] ex t2 hw
    simp only [waitloop] at h
    rw [show ({ emptyTrace with
          logs := emptyTrace.logs ++ ["Error reading root: " ++ e] } : Trace) =
        { emptyTrace with logs := ["Error reading root: " ++ e] ++ emptyTrace.logs }
      by simp [emptyTrace]] at h
    rw [hfr] at h
    simp only [Option.some.injEq] at h
    subst h
    simp

/-- C5 (witness): a concrete run with one failing hang-up then a clean serve
result, compared against the run without the hang-up. -/
theorem C5_hupFailureRecovered_witness :
    ({ result := none, serveTaskStarted := true,
       exit := some (LoopExit.serveResult none),
       trace := { unmountCalls := 0, forgetAllCalls := 0, errChanReads := 1,
                  logs := ["Error reading root: boom"] } } : RunResult).result =
      ({ result := none, serveTaskStarted := true,
         exit := some (LoopExit.serveResult none),
         trace := { unmountCalls := 0, forgetAllCalls := 0, errChanReads := 1,
                    logs := [] } } : RunResult).result ∧
    ({ result := none, serveTaskStarted := true,
       exit := some (LoopExit.serveResult none),
       trace := { unmountCalls := 0, forgetAllCalls := 0, errChanReads := 1,
                  logs := ["Error reading root: boom"] } } : RunResult).exit =
      ({ result := none, serveTaskStarted := true,
         exit := some (LoopExit.serveResult none),
         trace := { unmountCalls := 0, forgetAllCalls := 0, errChanReads := 1,
                    logs := [] } } : RunResult).exit ∧
    (0 : Nat) = 0 ∧ (0 : Nat) = 0 ∧ (1 : Nat) = 1 ∧
    (["Error reading root: boom"] : List String) =
      ("Error reading root: " ++ "boom") :: [] :=
  C5_hupFailureRecovered
    { fuseMountErr := none, mountError := none, serveErr := none,
      closeErr := none, unmountErr := none }
    "boom" [Event.serveResult] _ _ rfl rfl rfl rfl

/-- C6: after an interrupt is received while serving, `unmount` is called
exactly once before the run reaches its terminal state, whatever the pending
serve result is. -/
theorem C6_unmountOnce (env : Env) (events : List Event) (r : RunResult)
    (u : GoError) (h : Mount env events = some r)
    (hx : r.exit = some (LoopExit.interrupted u)) :
    r.trace.unmountCalls = 1 := by
  obtain ⟨-, -, hw, -, -⟩ := Mount_exit_inv env events r _ h hx
  have hspec := waitloop_interrupted_spec _ _ _ _ _ _ hw
  simpa [emptyTrace] using hspec.2.1

/-- C6 (witness): a concrete interrupted run. -/
theorem C6_unmountOnce_witness :
    ({ result := some "failed to umount FUSE fs: still busy",
       serveTaskStarted := true,
       exit := some (LoopExit.interrupted (some "still busy")),
       trace := { unmountCalls := 1, forgetAllCalls := 0, errChanReads := 0,
                  logs := [] } } : RunResult).trace.unmountCalls = 1 :=
  C6_unmountOnce
    { fuseMountErr := none, mountError := none,
      serveErr := some "pending serve result", closeErr := none,
      unmountErr := some "still busy" }
    [Event.interrupt] _ (some "still busy") rfl rfl

/-- C7: the option builder's output equals the tokens implied by the
true-valued recognized options in stable order, is unaffected by the
extra-transport-options list (which only drives warnings), and warnings are
logged exactly when that list is non-empty — the build itself never fails. -/
theorem C7_optionBuilder (cfg : Config) (device : String) :
    (mountOptions cfg device).1 = impliedOptions cfg device ∧
    (mountOptions cfg device).1 =
      (mountOptions { cfg with ExtraOptions := [] } device).1 ∧
    ((mountOptions cfg device).2 = [] ↔ cfg.ExtraOptions = []) := by
  refine ⟨?_, ?_, ?_⟩
  · simp only [mountOptions, impliedOptions]
    split_ifs <;> simp
  · rfl
  · simp only [mountOptions]
    cases hx : cfg.ExtraOptions <;> simp [hx]

/-- C8: for every N, N hang-up signals whose root lookups succeed, delivered
while serving, produce exactly N `ForgetAll` calls and zero `unmount` calls;
the interrupt and hang-up signal channels are buffered to at least one value. -/
theorem C8_hangupCount (env : Env) (n : Nat) (r : RunResult)
    (h1 : env.fuseMountErr = none) (h2 : env.mountError = none)
    (h : Mount env
        (List.replicate n (Event.hup none) ++ [Event.serveResult]) = some r) :
    r.trace.forgetAllCalls = n ∧ r.trace.unmountCalls = 0 ∧
    1 ≤ sigHupCap ∧ 1 ≤ sigIntCap := by
  unfold Mount at h
  rw [h1, h2, waitloop_replicate_hup] at h
  simp only [Option.some.injEq] at h
  subst h
  simp [emptyTrace, sigHupCap, sigIntCap]

/-- C8 (witness): three clean hang-ups then a serve result. -/
theorem C8_hangupCount_witness :
    ({ result := none, serveTaskStarted := true,
       exit := some (LoopExit.serveResult none),
       trace := { unmountCalls := 0, forgetAllCalls := 3, errChanReads := 1,
                  logs := [] } } : RunResult).trace.forgetAllCalls = 3 ∧
    ({ result := none, serveTaskStarted := true,
       exit := some (LoopExit.serveResult none),
       trace := { unmountCalls := 0, forgetAllCalls := 3, errChanReads := 1,
                  logs := [] } } : RunResult).trace.unmountCalls = 0 ∧
    1 ≤ sigHupCap ∧ 1 ≤ sigIntCap :=
  C8_hangupCount
    { fuseMountErr := none, mountError := none, serveErr := none,
      closeErr := none, unmountErr := none } 3 _ rfl rfl rfl

/-- C9: the "--fuse-flag" warning is emitted iff the extra-transport-options
list is non-empty, and both warning branches test the same condition, so the
two warnings always fire together. -/
theorem C9_warningsCoupled (cfg : Config) (device : String) :
    ("--fuse-flag not supported with this FUSE backend" ∈
        (mountOptions cfg device).2 ↔ cfg.ExtraOptions ≠ []) ∧
    ("--fuse-flag not supported with this FUSE backend" ∈
        (mountOptions cfg device).2 ↔
      "-o/--option not supported with this FUSE backend" ∈
        (mountOptions cfg device).2) := by
  simp only [mountOptions]
  cases hx : cfg.ExtraOptions <;> simp [hx]

/-- C10: if the interrupt branch is taken while serving and `unmount` returns
nil, the top-level operation returns nil without ever reading the serve-result
channel; the pending serve result, whatever it is, is discarded. -/
theorem C10_serveResultDiscarded (env : Env) (events : List Event)
    (r : RunResult) (u : GoError) (h : Mount env events = some r)
    (hx : r.exit = some (LoopExit.interrupted u))
    (hu : env.unmountErr = none) :
    r.result = none ∧ r.trace.errChanReads = 0 := by
  obtain ⟨-, -, hw, hres, -⟩ := Mount_exit_inv env events r _ h hx
  have hspec := waitloop_interrupted_spec _ _ _ _ _ _ hw
  refine ⟨?_, by simpa [emptyTrace] using hspec.2.2⟩
  rw [hres]
  have hun : u = none := hspec.1.trans hu
  simp [exitErr, hun, wrap]

/-- C10 (witness): an interrupted run with nil unmount error and a non-nil
pending serve error. -/
theorem C10_serveResultDiscarded_witness :
    ({ result := none, serveTaskStarted := true,
       exit := some (LoopExit.interrupted none),
       trace := { unmountCalls := 1, forgetAllCalls := 0, errChanReads := 0,
                  logs := [] } } : RunResult).result = none ∧
    ({ result := none, serveTaskStarted := true,
       exit := some (LoopExit.interrupted none),
       trace := { unmountCalls := 1, forgetAllCalls := 0, errChanReads := 0,
                  logs := [] } } : RunResult).trace.errChanReads = 0 :=
  C10_serveResultDiscarded
    { fuseMountErr := none, mountError := none,
      serveErr := some "discarded serve error", closeErr := none,
      unmountErr := none }
    [Event.interrupt] _ none rfl rfl rfl
